import Mathlib

/-!
Shallow embedding of the NoviSign / MTA integration server (server.js).

The embedding models the pure core of the pipeline:
  - the arrival selector `fetchFTrainArrivals` (its per-entity / per-stop-time
    filtering, labeling, bucketing, sorting and windowing logic, applied to an
    already-decoded entity sequence),
  - the catalog formatter `formatDataForNoviSign`,
  - the catalog publisher `pushToNoviSign` (with the network outcome passed in
    as data),
  - the auto-update scheduler `AutoUpdater` (as a trace over per-cycle
    environments).

JavaScript numbers are modelled as `Int` (all arithmetic in the program is on
integers well inside the double-precision safe range, except where a wrapped
64-bit protobuf value is involved, which is modelled explicitly below).
-/

namespace MtaNoviSign

/-- Configuration constant `ROUTE_ID = 'F'` (server.js line 18). -/
def ROUTE_ID : String := "F"

/-- Configuration constant `STOP_QUEENS = 'D15N'` (server.js line 19). -/
def STOP_QUEENS : String := "D15N"

/-- Configuration constant `STOP_BROOKLYN = 'D15S'` (server.js line 20). -/
def STOP_BROOKLYN : String := "D15S"

/-- An arrival-time value as it reaches line 213 of server.js after protobuf
decoding: either a plain JavaScript number, or a wrapped 64-bit `Long` object
`\x7b low, high \x7d`. A wrapped value is represented here by its full
mathematical 64-bit value; its `low` field is recovered by `lowWord`. -/
inductive TimeVal where
  | plain (n : Int)
  | wrapped (value : Int)
deriving DecidableEq

/-- The signed low 32-bit word of a 64-bit integer: the `.low` field of the
protobuf `Long` representation of `v`. -/
def lowWord (v : Int) : Int :=
  let m := v % 4294967296
  if m < 2147483648 then m else m - 4294967296

/-- A JavaScript value flowing out of the coercion `stu.arrival.time.low ||
stu.arrival.time` (line 213): either a plain number, or the `Long` object
itself when it fell through the `||` (its `low` field was `0`, hence falsy).
In later numeric contexts (subtraction, division) the `Long` object converts
via its decimal `toString` to its full 64-bit value, which `toNum` returns. -/
inductive JsVal where
  | num (n : Int)
  | longObj (value : Int)
deriving DecidableEq

/-- Numeric value of a `JsVal` in JavaScript arithmetic: a number is itself; a
`Long` object that fell through the `||` converts through its decimal string
representation to its full 64-bit value. -/
def JsVal.toNum : JsVal → Int
  | .num n => n
  | .longObj v => v

/-- Line 213: `const arrivalEpoch = stu.arrival.time.low || stu.arrival.time`.
On a plain number, `.low` is `undefined` (falsy) so the number itself is used.
On a wrapped `Long`, the signed low word is used when it is nonzero; a zero
low word is falsy, so the `Long` object itself falls through. -/
def coerceTime : TimeVal → JsVal
  | .plain n => .num n
  | .wrapped v => if lowWord v ≠ 0 then .num (lowWord v) else .longObj v

/-- JavaScript truthiness of an arrival-time value as tested by
`!stu.arrival?.time` (line 211): the number `0` is falsy, every other number is
truthy, and a `Long` object is truthy regardless of its value. -/
def timeTruthy : TimeVal → Bool
  | .plain n => n != 0
  | .wrapped _ => true

/-- A decoded `stopTimeUpdate` record as the selector reads it: an optional
arrival time (absent models a missing `arrival` or missing `arrival.time`)
and an optional stop identifier. -/
structure StopTimeUpdate where
  arrival : Option TimeVal
  stopId : Option String
deriving DecidableEq

/-- A decoded `trip` record: its `routeId` (proto3 string, `""` when unset). -/
structure Trip where
  routeId : String
deriving DecidableEq

/-- A decoded `tripUpdate` record. -/
structure TripUpdate where
  trip : Option Trip
  stopTimeUpdate : Option (List StopTimeUpdate)
deriving DecidableEq

/-- A decoded feed entity. -/
structure FeedEntity where
  tripUpdate : Option TripUpdate
deriving DecidableEq

/-- Rounding used at line 214: `Math.round(d / 60)` for an integer `d`.
JavaScript `Math.round` rounds halves toward positive infinity, so
`Math.round(d / 60) = ⌊(d + 30) / 60⌋` (floor division), exactly. -/
def jsRoundDiv60 (d : Int) : Int := Int.fdiv (d + 30) 60

/-- Line 214: `minutesAway = Math.round((arrivalEpoch - now) / 60)`. -/
def minutesAwayOf (now : Int) (epoch : JsVal) : Int :=
  jsRoundDiv60 (epoch.toNum - now)

/-- Line 219: `minutesAway <= 0 ? 'Arriving' : ` the template
`$\x7bminutesAway\x7d min`. -/
def minutesLabel (m : Int) : String :=
  if m ≤ 0 then "Arriving" else toString m ++ " min"

/-- One arrival event as built at lines 218-221:
`\x7b minutesAway: ..., arrivalTime: arrivalEpoch \x7d`. -/
structure ArrivalItem where
  minutesAway : String
  arrivalTime : JsVal
deriving DecidableEq

/-- The rounded minutes-away the selector computes for a stop-time update that
passes the truthiness tests of line 211; `none` when the update is skipped at
line 211 before any arithmetic happens. -/
def computedMinutes (now : Int) (stu : StopTimeUpdate) : Option Int :=
  match stu.arrival with
  | none => none
  | some t => if timeTruthy t then some (minutesAwayOf now (coerceTime t)) else none

/-- Truthiness of `stu.arrival?.time`: false when `arrival` (or its time) is
absent, otherwise the truthiness of the time value. -/
def arrTruthy (stu : StopTimeUpdate) : Bool :=
  match stu.arrival with
  | some t => timeTruthy t
  | none => false

/-- Truthiness of `stu.stopId`: false when absent or the empty string. -/
def stopTruthy (stu : StopTimeUpdate) : Bool :=
  match stu.stopId with
  | some s => s != ""
  | none => false

/-- Lines 211-221 for a single stop-time update: the guard
`if (!stu.arrival?.time || !stu.stopId) return` skips the update when the
arrival time or stop identifier is absent or falsy; otherwise the epoch is
coerced, the rounded minutes computed, the update skipped when they are
negative, and the arrival item built. -/
def processStu (now : Int) (stu : StopTimeUpdate) : Option ArrivalItem :=
  if !arrTruthy stu || !stopTruthy stu then none
  else
    match stu.arrival with
    | none => none
    | some t =>
      let arrivalEpoch := coerceTime t
      let m := minutesAwayOf now arrivalEpoch
      if m < 0 then none
      else some { minutesAway := minutesLabel m, arrivalTime := arrivalEpoch }

/-- Lines 223-224: the contribution of one stop-time update to the Queens and
Brooklyn buckets (`stu.stopId === STOP_QUEENS` pushes to the first,
`stu.stopId === STOP_BROOKLYN` to the second). -/
def stuContrib (now : Int) (stu : StopTimeUpdate) : List ArrivalItem × List ArrivalItem :=
  match processStu now stu with
  | none => ([], [])
  | some item =>
    ((if stu.stopId = some STOP_QUEENS then [item] else []),
     (if stu.stopId = some STOP_BROOKLYN then [item] else []))

/-- Lines 207-226 for a single entity: entities with no trip update, no trip,
or a route identifier different from `ROUTE_ID` contribute nothing; otherwise
every stop-time update contributes via `stuContrib` in feed order. -/
def entityContrib (now : Int) (e : FeedEntity) : List ArrivalItem × List ArrivalItem :=
  match e.tripUpdate with
  | none => ([], [])
  | some tu =>
    match tu.trip with
    | none => ([], [])
    | some tr =>
      if tr.routeId ≠ ROUTE_ID then ([], [])
      else
        match tu.stopTimeUpdate with
        | none => ([], [])
        | some stus =>
          ((stus.map (fun s => (stuContrib now s).1)).flatten,
           (stus.map (fun s => (stuContrib now s).2)).flatten)

/-- Comparator of lines 228-229: `(a, b) => a.arrivalTime - b.arrivalTime`,
read as the keep-in-order test of a stable sort. -/
def arrivalLe (a b : ArrivalItem) : Bool :=
  decide (a.arrivalTime.toNum ≤ b.arrivalTime.toNum)

/-- One direction of the selector's output (`nextThreeTrains`). -/
structure DirectionalArrivals where
  nextThreeTrains : List ArrivalItem
deriving DecidableEq

/-- The selector's full output (lines 231-234). -/
structure TrainData where
  queensBound : DirectionalArrivals
  brooklynBound : DirectionalArrivals
deriving DecidableEq

/-- The Queens-bucket accumulation over the whole feed, in feed order. -/
def queensList (now : Int) (entities : List FeedEntity) : List ArrivalItem :=
  (entities.map (fun e => (entityContrib now e).1)).flatten

/-- The Brooklyn-bucket accumulation over the whole feed, in feed order. -/
def brooklynList (now : Int) (entities : List FeedEntity) : List ArrivalItem :=
  (entities.map (fun e => (entityContrib now e).2)).flatten

/-- The pure core of `fetchFTrainArrivals` (lines 203-234), applied to the
already-decoded entity sequence and the sampled reference time `now`: filter
and bucket every stop-time update, stable-sort each bucket ascending by the
`arrivalTime` comparator, and keep the first three (`slice(0, 3)`). -/
def fetchFTrainArrivalsCore (now : Int) (entities : List FeedEntity) : TrainData :=
  { queensBound := ⟨((queensList now entities).mergeSort arrivalLe).take 3⟩,
    brooklynBound := ⟨((brooklynList now entities).mergeSort arrivalLe).take 3⟩ }

/-- A catalog item value: the object `\x7b minutesAway: ... \x7d` stored under
one item identifier by `formatDataForNoviSign`. -/
structure CatalogItem where
  minutesAway : String
deriving DecidableEq

/-- Lines 144-181 for one direction: real trains produce `pfx_<index+1>`
entries with their label; the padding loop then fills slots from the number of
real trains up to 3 with the sentinel `"--"`. The returned association list
records the object's keys in insertion order. -/
def formatDirection (pfx : String) (trains : List ArrivalItem) : List (String × CatalogItem) :=
  trains.enum.map (fun p => (pfx ++ "_" ++ toString (p.1 + 1), ⟨p.2.minutesAway⟩))
    ++ ((List.range 3).drop trains.length).map
        (fun i => (pfx ++ "_" ++ toString (i + 1), ⟨"--"⟩))

/-- Lines 137-184: `formatDataForNoviSign`, building the `items` object with
the Queens entries first and the Brooklyn entries second. -/
def formatDataForNoviSign (trainData : TrainData) : List (String × CatalogItem) :=
  formatDirection ("queens") trainData.queensBound.nextThreeTrains
    ++ formatDirection ("brooklyn") trainData.brooklynBound.nextThreeTrains

/-- Value shown in slot `i` (0-based) of a direction: the `i`-th train's label
when it exists, else the sentinel. -/
def slotValue (trains : List ArrivalItem) (i : Nat) : String :=
  match trains[i]? with
  | some tr => tr.minutesAway
  | none => "--"

/-- The number of keys of a JavaScript object modelled as an association list
in insertion order: `Object.keys(o).length` counts distinct keys. -/
def numKeys (items : List (String × CatalogItem)) : Nat :=
  (items.map Prod.fst).dedup.length

/-- Outcome of the single `axios.post` of line 87, passed to the publisher as
data: a success response, an error with a response attached (non-success
status, optional `data.message`), or a transport error with no response. -/
inductive AxiosOutcome where
  | ok (respData : String)
  | errResponse (status : Int) (dataMessage : Option String) (message : String)
  | errNoResponse (message : String)
deriving DecidableEq

/-- The success value built at lines 94-99. -/
structure PublishResult where
  success : Bool
  itemsUpdated : Nat
  timestamp : String
  response : String
deriving DecidableEq

/-- Lines 56-118: `pushToNoviSign`. On a successful response it returns the
success record with `itemsUpdated = Object.keys(dataItems).length`; on an
error with a response it throws the `NoviSign API error (status): ...` message
(falling back from a falsy `data.message` to `error.message`); on a transport
error it throws `Failed to push to NoviSign: ...`. The timestamp string is the
sampled `new Date().toISOString()`. Exactly one request is made per call: the
single consumed `outcome` is its result, and no branch retries. -/
def pushToNoviSign (dataItems : List (String × CatalogItem)) (outcome : AxiosOutcome)
    (ts : String) : Except String PublishResult :=
  match outcome with
  | .ok respData =>
    .ok { success := true, itemsUpdated := numKeys dataItems,
          timestamp := ts, response := respData }
  | .errResponse status dataMessage message =>
    .error ("NoviSign API error (" ++ toString status ++ "): " ++
      (match dataMessage with
       | some m => if m ≠ "" then m else message
       | none => message))
  | .errNoResponse message =>
    .error ("Failed to push to NoviSign: " ++ message)

/-- Environment of one update cycle: the outcome of the feed fetch + decode
(an error models a transport or decode failure inside `fetchFTrainArrivals`),
the sampled reference time, the outcome of the publish request, and the
sampled timestamp string. -/
structure CycleEnv where
  feed : Except String (List FeedEntity)
  now : Int
  push : AxiosOutcome
  ts : String

/-- Lines 244-271: `fetchAndPushToNoviSign` runs fetch/decode, the selector
core, the formatter and the publisher in sequence; a failure at any stage
propagates out of the cycle (the catch at line 267 rethrows the same error).
A fetch or decode failure surfaces as the `Failed to fetch MTA data: ...`
error thrown at line 237. -/
def fetchAndPushToNoviSign (env : CycleEnv) : Except String PublishResult :=
  match env.feed with
  | .error msg => .error ("Failed to fetch MTA data: " ++ msg)
  | .ok entities =>
    let trainData := fetchFTrainArrivalsCore env.now entities
    let novisignData := formatDataForNoviSign trainData
    pushToNoviSign novisignData env.push env.ts

/-- Observable outcome of one scheduled cycle: either the cycle ran to
completion with a publish result, or its failure was caught at the cycle
boundary and logged. -/
inductive CycleOutcome where
  | completed (r : PublishResult)
  | loggedFailure (msg : String)
deriving DecidableEq

/-- Scheduler state: whether the recurring `setInterval` timer is armed, and
the error log accumulated by the `.catch` handlers. -/
structure SchedState where
  timerArmed : Bool
  log : List String
deriving DecidableEq

/-- One catch-wrapped cycle (lines 377-379 and 383-385): a rejection is caught
and logged with the given label; nothing touches the timer in either branch. -/
def runGuardedCycle (label : String) (env : CycleEnv) (s : SchedState) :
    SchedState × CycleOutcome :=
  match fetchAndPushToNoviSign env with
  | .ok r => (s, .completed r)
  | .error m => ({ s with log := s.log ++ [label ++ m] }, .loggedFailure m)

/-- Lines 372-387: the `AutoUpdater` trace over a sequence of per-cycle
environments. Cycle 0 is the initial update (caught at line 377); the
recurring timer is armed once after it settles and every later cycle `n + 1`
is timer-fired and caught at line 383. `clearInterval` is only reachable from
the SIGTERM handler, never from a cycle failure. -/
def autoUpdater (envs : Nat → CycleEnv) : Nat → SchedState × CycleOutcome
  | 0 =>
    let p := runGuardedCycle ("Initial update failed: ") (envs 0) ⟨false, []⟩
    ({ p.1 with timerArmed := true }, p.2)
  | n + 1 =>
    runGuardedCycle ("Auto-update failed: ") (envs (n + 1)) (autoUpdater envs n).1

/-! ### Helper lemmas about the selector core -/

lemma jsRoundDiv60_eq (d : Int) : jsRoundDiv60 d = (d + 30) / 60 := by
  unfold jsRoundDiv60
  rw [Int.fdiv_eq_ediv _ (by norm_num)]

lemma processStu_inv {now : Int} {stu : StopTimeUpdate} {item : ArrivalItem}
    (h : processStu now stu = some item) :
    ∃ t sid, stu.arrival = some t ∧ stu.stopId = some sid ∧
      timeTruthy t = true ∧ sid ≠ "" ∧
      0 ≤ minutesAwayOf now (coerceTime t) ∧
      item = { minutesAway := minutesLabel (minutesAwayOf now (coerceTime t)),
               arrivalTime := coerceTime t } := by
  unfold processStu at h
  split at h
  · simp at h
  next hg =>
    cases harr : arrTruthy stu with
    | false => rw [harr] at hg; simp at hg
    | true =>
      cases hstop : stopTruthy stu with
      | false => rw [hstop] at hg; simp at hg
      | true =>
        unfold arrTruthy at harr
        rcases ha : stu.arrival with _ | t
        · rw [ha] at harr; simp at harr
        · rw [ha] at h harr
          unfold stopTruthy at hstop
          rcases hsid : stu.stopId with _ | sid
          · rw [hsid] at hstop; simp at hstop
          · rw [hsid] at hstop
            have hne : sid ≠ "" := by simpa using hstop
            by_cases hm : minutesAwayOf now (coerceTime t) < 0
            · simp [hm] at h
            · simp [hm] at h
              exact ⟨t, sid, rfl, rfl, harr, hne, by omega, h.symm⟩

lemma minutes_nonneg_of_processed {now : Int} {stu : StopTimeUpdate} {item : ArrivalItem}
    (h : processStu now stu = some item) :
    0 ≤ jsRoundDiv60 (item.arrivalTime.toNum - now) := by
  obtain ⟨t, sid, -, -, -, -, hm, rfl⟩ := processStu_inv h
  simpa [minutesAwayOf] using hm

lemma mem_stuContrib_fst {now : Int} {stu : StopTimeUpdate} {item : ArrivalItem}
    (h : item ∈ (stuContrib now stu).1) : processStu now stu = some item := by
  rcases hp : processStu now stu with _ | it
  · simp [stuContrib, hp] at h
  · simp only [stuContrib, hp] at h
    split at h
    · simp at h; rw [h]
    · simp at h

lemma mem_stuContrib_snd {now : Int} {stu : StopTimeUpdate} {item : ArrivalItem}
    (h : item ∈ (stuContrib now stu).2) : processStu now stu = some item := by
  rcases hp : processStu now stu with _ | it
  · simp [stuContrib, hp] at h
  · simp only [stuContrib, hp] at h
    split at h
    · simp at h; rw [h]
    · simp at h

lemma mem_entityContrib_fst {now : Int} {e : FeedEntity} {item : ArrivalItem}
    (h : item ∈ (entityContrib now e).1) : ∃ stu, item ∈ (stuContrib now stu).1 := by
  rcases e with ⟨_ | ⟨_ | tr, _ | stus⟩⟩
  · simp [entityContrib] at h
  · simp [entityContrib] at h
  · simp [entityContrib] at h
  · simp [entityContrib] at h
  · by_cases hr : tr.routeId = ROUTE_ID
    · simp only [entityContrib] at h
      rw [if_neg (not_not_intro hr)] at h
      obtain ⟨l, hl, hm⟩ := List.mem_flatten.mp h
      obtain ⟨stu, _, rfl⟩ := List.mem_map.mp hl
      exact ⟨stu, hm⟩
    · simp [entityContrib, hr] at h

lemma mem_entityContrib_snd {now : Int} {e : FeedEntity} {item : ArrivalItem}
    (h : item ∈ (entityContrib now e).2) : ∃ stu, item ∈ (stuContrib now stu).2 := by
  rcases e with ⟨_ | ⟨_ | tr, _ | stus⟩⟩
  · simp [entityContrib] at h
  · simp [entityContrib] at h
  · simp [entityContrib] at h
  · simp [entityContrib] at h
  · by_cases hr : tr.routeId = ROUTE_ID
    · simp only [entityContrib] at h
      rw [if_neg (not_not_intro hr)] at h
      obtain ⟨l, hl, hm⟩ := List.mem_flatten.mp h
      obtain ⟨stu, _, rfl⟩ := List.mem_map.mp hl
      exact ⟨stu, hm⟩
    · simp [entityContrib, hr] at h

lemma mem_queensList_processed {now : Int} {entities : List FeedEntity} {item : ArrivalItem}
    (h : item ∈ queensList now entities) : ∃ stu, processStu now stu = some item := by
  unfold queensList at h
  obtain ⟨l, hl, hm⟩ := List.mem_flatten.mp h
  obtain ⟨e, _, rfl⟩ := List.mem_map.mp hl
  obtain ⟨stu, hs⟩ := mem_entityContrib_fst hm
  exact ⟨stu, mem_stuContrib_fst hs⟩

lemma mem_brooklynList_processed {now : Int} {entities : List FeedEntity} {item : ArrivalItem}
    (h : item ∈ brooklynList now entities) : ∃ stu, processStu now stu = some item := by
  unfold brooklynList at h
  obtain ⟨l, hl, hm⟩ := List.mem_flatten.mp h
  obtain ⟨e, _, rfl⟩ := List.mem_map.mp hl
  obtain ⟨stu, hs⟩ := mem_entityContrib_snd hm
  exact ⟨stu, mem_stuContrib_snd hs⟩

lemma arrivalLe_trans (a b c : ArrivalItem) (hab : arrivalLe a b = true)
    (hbc : arrivalLe b c = true) : arrivalLe a c = true := by
  simp [arrivalLe] at *
  omega

lemma arrivalLe_total (a b : ArrivalItem) : (arrivalLe a b || arrivalLe b a) = true := by
  simp [arrivalLe]
  omega

lemma windowed_props (now : Int) (l : List ArrivalItem)
    (hall : ∀ item ∈ l, ∃ stu, processStu now stu = some item) :
    ((l.mergeSort arrivalLe).take 3).length ≤ 3 ∧
    List.Pairwise (fun a b : ArrivalItem => a.arrivalTime.toNum ≤ b.arrivalTime.toNum)
      ((l.mergeSort arrivalLe).take 3) ∧
    ∀ item ∈ (l.mergeSort arrivalLe).take 3,
      0 ≤ jsRoundDiv60 (item.arrivalTime.toNum - now) := by
  refine ⟨?_, ?_, ?_⟩
  · rw [List.length_take]
    exact min_le_left _ _
  · have hp := List.sorted_mergeSort arrivalLe_trans arrivalLe_total l
    have hq := List.Pairwise.sublist (List.take_sublist 3 _) hp
    exact hq.imp (fun h => by simpa [arrivalLe] using h)
  · intro item hmem
    have h1 : item ∈ l.mergeSort arrivalLe := (List.take_sublist 3 _).subset hmem
    have h2 : item ∈ l := (List.mergeSort_perm l arrivalLe).mem_iff.mp h1
    obtain ⟨stu, hs⟩ := hall item h2
    exact minutes_nonneg_of_processed hs

/-! ### Concrete example feed used by witnesses -/

/-- Example stop-time update: F train reaching the Queens-bound stop 60 seconds
after the reference time 0. -/
def exStu : StopTimeUpdate := ⟨some (.plain 60), some ("D15N")⟩

/-- Example feed entity wrapping `exStu` on route F. -/
def exEntity : FeedEntity := ⟨some ⟨some ⟨"F"⟩, some [exStu]⟩⟩

/-- The arrival event the selector builds from `exStu` at reference time 0. -/
def exItem : ArrivalItem := ⟨"1 min", .num 60⟩

lemma exQueens_eval :
    (fetchFTrainArrivalsCore 0 [exEntity]).queensBound.nextThreeTrains = [exItem] := by
  show ((queensList 0 [exEntity]).mergeSort arrivalLe).take 3 = [exItem]
  have h1 : queensList 0 [exEntity] = [exItem] := by decide
  rw [h1, List.mergeSort_singleton]
  rfl

/-! ### C1 -/

/-- C1: for every decoded entity sequence and every reference time `now`, each
direction's output of the arrival selector contains at most 3 events, is
sorted ascending by the raw arrival epoch stored in `arrivalTime`, and every
event in it has computed minutes-away `round((arrivalEpoch - now) / 60) ≥ 0`. -/
theorem selector_windowing (now : Int) (entities : List FeedEntity) :
    ((fetchFTrainArrivalsCore now entities).queensBound.nextThreeTrains.length ≤ 3 ∧
      List.Pairwise (fun a b : ArrivalItem => a.arrivalTime.toNum ≤ b.arrivalTime.toNum)
        (fetchFTrainArrivalsCore now entities).queensBound.nextThreeTrains ∧
      ∀ item ∈ (fetchFTrainArrivalsCore now entities).queensBound.nextThreeTrains,
        0 ≤ jsRoundDiv60 (item.arrivalTime.toNum - now)) ∧
    ((fetchFTrainArrivalsCore now entities).brooklynBound.nextThreeTrains.length ≤ 3 ∧
      List.Pairwise (fun a b : ArrivalItem => a.arrivalTime.toNum ≤ b.arrivalTime.toNum)
        (fetchFTrainArrivalsCore now entities).brooklynBound.nextThreeTrains ∧
      ∀ item ∈ (fetchFTrainArrivalsCore now entities).brooklynBound.nextThreeTrains,
        0 ≤ jsRoundDiv60 (item.arrivalTime.toNum - now)) :=
  ⟨windowed_props now (queensList now entities) (fun _ h => mem_queensList_processed h),
   windowed_props now (brooklynList now entities) (fun _ h => mem_brooklynList_processed h)⟩

/-- Witness for C1 at the concrete one-entity feed `[exEntity]` and `now = 0`:
the single Queens-bound output event has nonnegative computed minutes. -/
theorem selector_windowing_witness :
    0 ≤ jsRoundDiv60 (exItem.arrivalTime.toNum - 0) :=
  (selector_windowing 0 [exEntity]).1.2.2 exItem
    (by rw [exQueens_eval]; exact List.mem_singleton.mpr rfl)

/-! ### C2 -/

/-- C2: for every retained stop-time update, computed minutes 0 labels the
event `"Arriving"` and computed minutes `N ≥ 1` labels it `"<N> min"`; a
stop-time update whose computed minutes are -1 contributes an event to
neither direction's bucket. -/
theorem labeling_boundary :
    (∀ (now : Int) (stu : StopTimeUpdate) (item : ArrivalItem) (m : Int),
        processStu now stu = some item → computedMinutes now stu = some m →
        (m = 0 → item.minutesAway = "Arriving") ∧
        (1 ≤ m → item.minutesAway = toString m ++ " min")) ∧
    (∀ (now : Int) (stu : StopTimeUpdate),
        computedMinutes now stu = some (-1) → stuContrib now stu = ([], [])) := by
  constructor
  · intro now stu item m hp hm
    obtain ⟨t, sid, ha, hs, ht, hne, hnn, rfl⟩ := processStu_inv hp
    unfold computedMinutes at hm
    rw [ha] at hm
    simp only [ht, if_true, Option.some.injEq] at hm
    subst hm
    constructor
    · intro h0
      simp [minutesLabel, h0]
    · intro h1
      simp only [minutesLabel]
      rw [if_neg (by omega)]
  · intro now stu hm
    have hp : processStu now stu = none := by
      unfold computedMinutes at hm
      rcases ha : stu.arrival with _ | t
      · rw [ha] at hm; simp at hm
      · rw [ha] at hm
        by_cases ht : timeTruthy t
        · simp only [ht, if_true, Option.some.injEq] at hm
          unfold processStu
          split
          · rfl
          · rw [ha]
            simp [hm]
        · simp [ht] at hm
    simp [stuContrib, hp]

/-- Witness for C2 at concrete inputs and `now = 0`: an update 10 seconds out
is labeled `"Arriving"`, an update 60 seconds out is labeled `"1 min"`, and an
update 31 seconds in the past (computed minutes -1) reaches neither bucket. -/
theorem labeling_boundary_witness :
    (ArrivalItem.mk "Arriving" (.num 10)).minutesAway = "Arriving" ∧
    (ArrivalItem.mk "1 min" (.num 60)).minutesAway = toString (1 : Int) ++ " min" ∧
    stuContrib 0 ⟨some (.plain (-31)), some ("D15N")⟩ = ([], []) :=
  ⟨(labeling_boundary.1 0 ⟨some (.plain 10), some ("D15N")⟩ _ 0 (by decide) (by decide)).1 rfl,
   (labeling_boundary.1 0 ⟨some (.plain 60), some ("D15N")⟩ _ 1 (by decide) (by decide)).2
     (by norm_num),
   labeling_boundary.2 0 ⟨some (.plain (-31)), some ("D15N")⟩ (by decide)⟩

/-! ### C3 -/

/-- Example stop-time update 20 seconds in the past relative to `now = 1000`. -/
def pastStu : StopTimeUpdate := ⟨some (.plain 980), some ("D15N")⟩

/-- Example feed entity wrapping `pastStu` on route F. -/
def pastEntity : FeedEntity := ⟨some ⟨some ⟨"F"⟩, some [pastStu]⟩⟩

/-- The arrival event the selector builds from `pastStu` at `now = 1000`. -/
def pastItem : ArrivalItem := ⟨"Arriving", .num 980⟩

/-- Counterexample to C3 as stated: the update `pastStu` has arrival epoch
980, strictly before `now = 1000`, yet it is not excluded — it contributes the
event `pastItem` to the Queens bucket and appears in the selector's output. -/
theorem past_arrival_counterexample :
    (980 : Int) < 1000 ∧
    stuContrib 1000 pastStu = ([pastItem], []) ∧
    (fetchFTrainArrivalsCore 1000 [pastEntity]).queensBound.nextThreeTrains = [pastItem] := by
  refine ⟨by norm_num, by decide, ?_⟩
  show ((queensList 1000 [pastEntity]).mergeSort arrivalLe).take 3 = [pastItem]
  have h1 : queensList 1000 [pastEntity] = [pastItem] := by decide
  rw [h1, List.mergeSort_singleton]
  rfl

/-- C3 amended: exclusion is decided on the rounded minutes, not on the raw
sign of `arrivalEpoch - now`. A stop-time update with truthy arrival time and
stop identifier is skipped exactly when its coerced arrival epoch is strictly
below `now - 30` (rounded minutes negative); every update with coerced epoch
at least `now - 30` is retained, so updates up to 30 seconds in the past still
produce events. -/
theorem past_arrival_exclusion (now : Int) (stu : StopTimeUpdate) (t : TimeVal) (sid : String)
    (ha : stu.arrival = some t) (ht : timeTruthy t = true)
    (hs : stu.stopId = some sid) (hne : sid ≠ "") :
    (processStu now stu = none ↔ (coerceTime t).toNum < now - 30) ∧
    ((processStu now stu).isSome ↔ now - 30 ≤ (coerceTime t).toNum) := by
  have hguard : (!arrTruthy stu || !stopTruthy stu) = false := by
    unfold arrTruthy stopTruthy
    rw [ha, hs]
    simp [ht, hne]
  have hm : minutesAwayOf now (coerceTime t) = ((coerceTime t).toNum - now + 30) / 60 := by
    unfold minutesAwayOf
    exact jsRoundDiv60_eq _
  unfold processStu
  rw [hguard, ha]
  by_cases hlt : minutesAwayOf now (coerceTime t) < 0
  · have hlt' : (coerceTime t).toNum < now - 30 := by rw [hm] at hlt; omega
    simp only [Bool.false_eq_true, if_false]
    rw [if_pos hlt]
    refine ⟨⟨fun _ => hlt', fun _ => rfl⟩, ⟨fun h => by simp at h, fun h => ?_⟩⟩
    exact absurd h (by omega)
  · have hge : now - 30 ≤ (coerceTime t).toNum := by rw [hm] at hlt; omega
    simp only [Bool.false_eq_true, if_false]
    rw [if_neg hlt]
    refine ⟨⟨fun h => by simp at h, fun h => absurd h (by omega)⟩,
            ⟨fun _ => hge, fun _ => rfl⟩⟩

/-- Witness for C3's amended statement at concrete inputs: at `now = 1000` an
update with epoch 900 (below 970) is skipped, and one with epoch 980 (at
least 970) is retained. -/
theorem past_arrival_exclusion_witness :
    processStu 1000 ⟨some (.plain 900), some ("D15N")⟩ = none ∧
    (processStu 1000 ⟨some (.plain 980), some ("D15N")⟩).isSome := by
  constructor
  · exact (past_arrival_exclusion 1000 ⟨some (.plain 900), some ("D15N")⟩
      (.plain 900) ("D15N") rfl (by decide) rfl (by decide)).1.mpr (by decide)
  · exact (past_arrival_exclusion 1000 ⟨some (.plain 980), some ("D15N")⟩
      (.plain 980) ("D15N") rfl (by decide) rfl (by decide)).2.mpr (by decide)

/-! ### C5 -/

/-- C5: an entity with no trip update, no trip, or a route identifier other
than `ROUTE_ID` contributes zero events to both buckets, and a stop-time
update whose stop identifier matches neither `STOP_QUEENS` nor
`STOP_BROOKLYN` contributes zero events to both buckets. -/
theorem route_stop_filtering :
    (∀ (now : Int) (e : FeedEntity),
        (e.tripUpdate = none ∨
          (∃ tu, e.tripUpdate = some tu ∧ tu.trip = none) ∨
          (∃ tu tr, e.tripUpdate = some tu ∧ tu.trip = some tr ∧ tr.routeId ≠ ROUTE_ID)) →
        entityContrib now e = ([], [])) ∧
    (∀ (now : Int) (stu : StopTimeUpdate),
        stu.stopId ≠ some STOP_QUEENS → stu.stopId ≠ some STOP_BROOKLYN →
        stuContrib now stu = ([], [])) := by
  constructor
  · intro now e h
    rcases h with h | ⟨tu, htu, htr⟩ | ⟨tu, tr, htu, htr, hr⟩
    · simp [entityContrib, h]
    · simp [entityContrib, htu, htr]
    · rcases htus : tu.stopTimeUpdate with _ | stus <;>
        simp [entityContrib, htu, htr, htus, hr]
  · intro now stu hq hb
    rcases hp : processStu now stu with _ | it
    · simp [stuContrib, hp]
    · simp [stuContrib, hp, hq, hb]

/-- Witness for C5 at concrete inputs: a route-G entity contributes nothing,
and an F-train update at an unconfigured stop contributes nothing. -/
theorem route_stop_filtering_witness :
    entityContrib 0 ⟨some ⟨some ⟨"G"⟩, some [exStu]⟩⟩ = ([], []) ∧
    stuContrib 0 ⟨some (.plain 60), some ("X99N")⟩ = ([], []) :=
  ⟨route_stop_filtering.1 0 _ (Or.inr (Or.inr ⟨_, _, rfl, rfl, by decide⟩)),
   route_stop_filtering.2 0 _ (by decide) (by decide)⟩

/-! ### C9 -/

/-- C9: the formatter is a pure function of its argument — formatting equal
`TrainData` values twice yields identical catalog item maps. -/
theorem formatDataForNoviSign_deterministic (t₁ t₂ : TrainData) (h : t₁ = t₂) :
    formatDataForNoviSign t₁ = formatDataForNoviSign t₂ := by
  rw [h]

/-- Witness for C9 at a concrete `TrainData` value. -/
theorem formatDataForNoviSign_deterministic_witness :
    formatDataForNoviSign ⟨⟨[exItem]⟩, ⟨[]⟩⟩ = formatDataForNoviSign ⟨⟨[exItem]⟩, ⟨[]⟩⟩ :=
  formatDataForNoviSign_deterministic ⟨⟨[exItem]⟩, ⟨[]⟩⟩ ⟨⟨[exItem]⟩, ⟨[]⟩⟩ rfl

/-! ### C10 -/

/-- C10: the line-211 guard tests falsiness, not absence — an arrival time
present as the plain number 0 or a stop identifier present as the empty
string is skipped exactly like an absent field, contributing no event and
raising no error. -/
theorem falsiness_skip :
    (∀ (now : Int) (sid : Option String),
        processStu now ⟨some (.plain 0), sid⟩ = none ∧
        processStu now ⟨none, sid⟩ = none ∧
        stuContrib now ⟨some (.plain 0), sid⟩ = ([], [])) ∧
    (∀ (now : Int) (t : Option TimeVal),
        processStu now ⟨t, some ""⟩ = none ∧
        processStu now ⟨t, none⟩ = none ∧
        stuContrib now ⟨t, some ""⟩ = ([], [])) := by
  constructor
  · intro now sid
    have h1 : processStu now ⟨some (.plain 0), sid⟩ = none := by
      simp [processStu, arrTruthy, timeTruthy]
    have h2 : processStu now ⟨none, sid⟩ = none := by
      simp [processStu, arrTruthy]
    exact ⟨h1, h2, by simp [stuContrib, h1]⟩
  · intro now t
    have h1 : processStu now ⟨t, some ""⟩ = none := by
      simp [processStu, stopTruthy]
    have h2 : processStu now ⟨t, none⟩ = none := by
      simp [processStu, stopTruthy]
    exact ⟨h1, h2, by simp [stuContrib, h1]⟩

/-! ### C4 -/

lemma natToString_one : toString (1 : Nat) = "1" := rfl

lemma natToString_two : toString (2 : Nat) = "2" := rfl

lemma natToString_three : toString (3 : Nat) = "3" := rfl

lemma range_eval : List.range 3 = [0, 1, 2] := by decide

lemma range'_eval_zero : List.range' 0 3 = [0, 1, 2] := by decide

lemma range'_eval_one : List.range' 1 2 = [1, 2] := by decide

lemma range'_eval_two : List.range' 2 1 = [2] := by decide

lemma range'_eval_three : List.range' 3 0 = [] := by decide

/-- C4: for inputs with at most 3 events per direction, the formatter's output
has exactly the six keys `queens_1 .. brooklyn_3` (in insertion order), and
slot `i + 1` of a direction holds the `i`-th event's `minutesAway` when that
event exists and the sentinel `"--"` otherwise — each direction always yields
exactly 3 entries. -/
theorem formatter_padding (t : TrainData)
    (hq : t.queensBound.nextThreeTrains.length ≤ 3)
    (hb : t.brooklynBound.nextThreeTrains.length ≤ 3) :
    (formatDataForNoviSign t).map Prod.fst =
      ["queens_1", "queens_2", "queens_3", "brooklyn_1", "brooklyn_2", "brooklyn_3"] ∧
    formatDataForNoviSign t =
      [("queens_1", ⟨slotValue t.queensBound.nextThreeTrains 0⟩),
       ("queens_2", ⟨slotValue t.queensBound.nextThreeTrains 1⟩),
       ("queens_3", ⟨slotValue t.queensBound.nextThreeTrains 2⟩),
       ("brooklyn_1", ⟨slotValue t.brooklynBound.nextThreeTrains 0⟩),
       ("brooklyn_2", ⟨slotValue t.brooklynBound.nextThreeTrains 1⟩),
       ("brooklyn_3", ⟨slotValue t.brooklynBound.nextThreeTrains 2⟩)] := by
  have hmain : formatDataForNoviSign t =
      [("queens_1", ⟨slotValue t.queensBound.nextThreeTrains 0⟩),
       ("queens_2", ⟨slotValue t.queensBound.nextThreeTrains 1⟩),
       ("queens_3", ⟨slotValue t.queensBound.nextThreeTrains 2⟩),
       ("brooklyn_1", ⟨slotValue t.brooklynBound.nextThreeTrains 0⟩),
       ("brooklyn_2", ⟨slotValue t.brooklynBound.nextThreeTrains 1⟩),
       ("brooklyn_3", ⟨slotValue t.brooklynBound.nextThreeTrains 2⟩)] := by
    obtain ⟨⟨qt⟩, ⟨bt⟩⟩ := t
    simp only [DirectionalArrivals.nextThreeTrains] at hq hb ⊢
    rcases qt with _ | ⟨a1, _ | ⟨a2, _ | ⟨a3, _ | ⟨a4, qr⟩⟩⟩⟩ <;>
      rcases bt with _ | ⟨b1, _ | ⟨b2, _ | ⟨b3, _ | ⟨b4, br⟩⟩⟩⟩ <;>
        first
          | (simp only [List.length_cons] at hq hb; omega)
          | simp [formatDataForNoviSign, formatDirection, slotValue, List.enum,
              List.enumFrom, natToString_one, natToString_two, natToString_three,
              range_eval, range'_eval_zero, range'_eval_one, range'_eval_two,
              range'_eval_three]
  exact ⟨by rw [hmain]; simp, hmain⟩

/-- Witness for C4 at the spec's worked example: one direction with events at
125 s and 3700 s, the other empty. -/
theorem formatter_padding_witness :
    formatDataForNoviSign ⟨⟨[⟨"2 min", .num 125⟩, ⟨"62 min", .num 3700⟩]⟩, ⟨[]⟩⟩ =
      [("queens_1", ⟨"2 min"⟩), ("queens_2", ⟨"62 min"⟩), ("queens_3", ⟨"--"⟩),
       ("brooklyn_1", ⟨"--"⟩), ("brooklyn_2", ⟨"--"⟩), ("brooklyn_3", ⟨"--"⟩)] :=
  (formatter_padding ⟨⟨[⟨"2 min", .num 125⟩, ⟨"62 min", .num 3700⟩]⟩, ⟨[]⟩⟩
    (by decide) (by decide)).2

/-! ### C6 -/

/-- C6: the publisher returns a success result exactly when the outbound
request succeeds; a success result carries `success = true` and
`itemsUpdated` equal to the number of keys sent; any failure (remote
rejection or transport failure) surfaces as a single thrown error. -/
theorem pushToNoviSign_result (d : List (String × CatalogItem)) (outcome : AxiosOutcome)
    (ts : String) :
    ((∃ r, pushToNoviSign d outcome ts = Except.ok r) ↔ ∃ resp, outcome = .ok resp) ∧
    (∀ r, pushToNoviSign d outcome ts = Except.ok r →
        r.success = true ∧ r.itemsUpdated = numKeys d ∧ r.timestamp = ts) ∧
    ((∀ resp, outcome ≠ .ok resp) →
        ∃ msg, pushToNoviSign d outcome ts = Except.error msg) := by
  rcases outcome with resp | ⟨status, dmsg, msg⟩ | msg
  · refine ⟨⟨fun _ => ⟨resp, rfl⟩, fun _ => ⟨_, rfl⟩⟩, ?_, ?_⟩
    · intro r hr
      simp only [pushToNoviSign, Except.ok.injEq] at hr
      rw [← hr]
      exact ⟨rfl, rfl, rfl⟩
    · intro h
      exact absurd rfl (h resp)
  · refine ⟨⟨?_, ?_⟩, ?_, fun _ => ⟨_, rfl⟩⟩
    · rintro ⟨r, hr⟩
      simp [pushToNoviSign] at hr
    · rintro ⟨r, hr⟩
      simp at hr
    · intro r hr
      simp [pushToNoviSign] at hr
  · refine ⟨⟨?_, ?_⟩, ?_, fun _ => ⟨_, rfl⟩⟩
    · rintro ⟨r, hr⟩
      simp [pushToNoviSign] at hr
    · rintro ⟨r, hr⟩
      simp at hr
    · intro r hr
      simp [pushToNoviSign] at hr

/-- Witness for C6 at concrete inputs: a successful push of an empty item map
returns a result, and a transport failure yields a thrown error. -/
theorem pushToNoviSign_result_witness :
    (∃ r, pushToNoviSign [] (AxiosOutcome.ok "accepted") "2025-01-01" = Except.ok r) ∧
    (∃ msg, pushToNoviSign [] (AxiosOutcome.errNoResponse "timeout") "2025-01-01" =
      Except.error msg) :=
  ⟨(pushToNoviSign_result [] (AxiosOutcome.ok "accepted") "2025-01-01").1.mpr
      ⟨"accepted", rfl⟩,
   (pushToNoviSign_result [] (AxiosOutcome.errNoResponse "timeout") "2025-01-01").2.2
      (by intro resp h; simp at h)⟩

/-! ### C8 -/

/-- Counterexample to C8 as stated: the wrapped 64-bit arrival time
4294967356 = 2^32 + 60 lies inside the safe integer range, so truncation to
that range leaves it unchanged; the selector instead uses its signed low
32-bit word 60 for all downstream arithmetic, producing the label `"1 min"`
at `now = 0` and storing 60, not 4294967356, as the sort key. -/
theorem wrapped_truncation_counterexample :
    coerceTime (.wrapped 4294967356) = .num 60 ∧
    (60 : Int) ≠ 4294967356 ∧
    (4294967356 : Int) < 2 ^ 53 ∧
    processStu 0 ⟨some (.wrapped 4294967356), some ("D15N")⟩ =
      some { minutesAway := "1 min", arrivalTime := .num 60 } := by
  refine ⟨by decide, by decide, by decide, by decide⟩

/-- C8 amended: a wrapped 64-bit arrival time is coerced via `.low || value`:
when its signed low 32-bit word is nonzero, that word (not a truncation of
the full value to the safe integer range) is the plain integer used for all
downstream minutes arithmetic and stored as the `arrivalTime` sort key; when
the low word is zero the wrapped object itself falls through. -/
theorem wrapped_epoch_low_word (v : Int) (hv : lowWord v ≠ 0) :
    coerceTime (.wrapped v) = .num (lowWord v) ∧
    (∀ vz : Int, lowWord vz = 0 → coerceTime (.wrapped vz) = .longObj vz) ∧
    (∀ (now : Int) (sid : String) (item : ArrivalItem),
        processStu now ⟨some (.wrapped v), some sid⟩ = some item →
        item.arrivalTime = .num (lowWord v) ∧
        item.arrivalTime.toNum = lowWord v ∧
        item.minutesAway = minutesLabel (jsRoundDiv60 (lowWord v - now))) := by
  have hc : coerceTime (.wrapped v) = .num (lowWord v) := by
    simp [coerceTime, hv]
  refine ⟨hc, fun vz hz => by simp [coerceTime, hz], ?_⟩
  intro now sid item hp
  obtain ⟨t, sid', ha, hs, ht, hne, hnn, rfl⟩ := processStu_inv hp
  simp only [Option.some.injEq] at ha
  subst ha
  rw [hc]
  exact ⟨rfl, rfl, by simp [minutesAwayOf, hc, JsVal.toNum]⟩

/-- Witness for C8's amended statement at the concrete wrapped value 100
(low word 100, nonzero). -/
theorem wrapped_epoch_low_word_witness :
    coerceTime (.wrapped 100) = .num (lowWord 100) :=
  (wrapped_epoch_low_word 100 (by decide)).1

/-! ### C7 -/

lemma autoUpdater_timerArmed (envs : Nat → CycleEnv) (n : Nat) :
    (autoUpdater envs n).1.timerArmed = true := by
  induction n with
  | zero =>
    unfold autoUpdater runGuardedCycle
    rcases h : fetchAndPushToNoviSign (envs 0) with m | r <;> simp [h]
  | succ n ih =>
    unfold autoUpdater runGuardedCycle
    rcases h : fetchAndPushToNoviSign (envs (n + 1)) with m | r <;> simp [h, ih]

lemma autoUpdater_succ_outcome (envs : Nat → CycleEnv) (n : Nat) :
    (autoUpdater envs (n + 1)).2 =
      match fetchAndPushToNoviSign (envs (n + 1)) with
      | .ok r => .completed r
      | .error m => .loggedFailure m := by
  show (runGuardedCycle ("Auto-update failed: ") (envs (n + 1)) (autoUpdater envs n).1).2 = _
  unfold runGuardedCycle
  rcases h : fetchAndPushToNoviSign (envs (n + 1)) with m | r <;> simp [h]

/-- C7: a failure in cycle `n` is caught at the cycle boundary: the recurring
timer stays armed, and cycle `n + 1` still runs the full
decode → select → format → publish pipeline — completing when no failure is
injected into it, and merely logging again when one is. This covers both the
initial startup cycle (`n = 0`) and every timer-fired cycle. -/
theorem scheduler_cycle_isolation (envs : Nat → CycleEnv) (n : Nat) (msg : String)
    (_hfail : (autoUpdater envs n).2 = .loggedFailure msg) :
    (autoUpdater envs (n + 1)).1.timerArmed = true ∧
    (∀ entities, (envs (n + 1)).feed = Except.ok entities →
        fetchAndPushToNoviSign (envs (n + 1)) =
          pushToNoviSign
            (formatDataForNoviSign (fetchFTrainArrivalsCore (envs (n + 1)).now entities))
            (envs (n + 1)).push (envs (n + 1)).ts) ∧
    (∀ r, fetchAndPushToNoviSign (envs (n + 1)) = Except.ok r →
        (autoUpdater envs (n + 1)).2 = .completed r) ∧
    (∀ m, fetchAndPushToNoviSign (envs (n + 1)) = Except.error m →
        (autoUpdater envs (n + 1)).2 = .loggedFailure m) := by
  refine ⟨autoUpdater_timerArmed envs (n + 1), ?_, ?_, ?_⟩
  · intro entities hfeed
    unfold fetchAndPushToNoviSign
    rw [hfeed]
  · intro r hr
    rw [autoUpdater_succ_outcome, hr]
  · intro m hm
    rw [autoUpdater_succ_outcome, hm]

/-- Cycle environment whose publish and feed both succeed. -/
def goodEnv : CycleEnv := ⟨.ok [exEntity], 0, .ok ("accepted"), "ts"⟩

/-- Cycle environment whose feed fetch fails. -/
def badEnv : CycleEnv := ⟨.error ("boom"), 0, .ok ("accepted"), "ts"⟩

/-- Environment sequence injecting a failure into cycle 0 only. -/
def exEnvs : Nat → CycleEnv := fun k => if k = 0 then badEnv else goodEnv

lemma exBrooklyn_eval :
    (fetchFTrainArrivalsCore 0 [exEntity]).brooklynBound.nextThreeTrains = [] := by
  show ((brooklynList 0 [exEntity]).mergeSort arrivalLe).take 3 = []
  have h1 : brooklynList 0 [exEntity] = [] := by decide
  rw [h1, List.mergeSort_nil]
  rfl

lemma exCore_eval : fetchFTrainArrivalsCore 0 [exEntity] = ⟨⟨[exItem]⟩, ⟨[]⟩⟩ := by
  unfold fetchFTrainArrivalsCore
  rw [show queensList 0 [exEntity] = [exItem] by decide,
      show brooklynList 0 [exEntity] = [] by decide,
      List.mergeSort_singleton, List.mergeSort_nil]
  rfl

/-- Witness for C7: with a feed failure injected into cycle 0 only, cycle 0 is
logged as failed, yet cycle 1 runs the whole pipeline and completes with the
publish result for the six formatted items. -/
theorem scheduler_cycle_isolation_witness :
    (autoUpdater exEnvs 1).2 =
      CycleOutcome.completed
        { success := true, itemsUpdated := 6, timestamp := "ts", response := "accepted" } := by
  have h := scheduler_cycle_isolation exEnvs 0 ("Failed to fetch MTA data: boom") (by decide)
  apply h.2.2.1
  show fetchAndPushToNoviSign goodEnv = _
  have hstep : fetchAndPushToNoviSign goodEnv =
      pushToNoviSign (formatDataForNoviSign (fetchFTrainArrivalsCore 0 [exEntity]))
        (.ok ("accepted")) "ts" := rfl
  rw [hstep, exCore_eval]
  rfl

end MtaNoviSign
